import Mathlib

/-!
Verification of the orchestration core of the `video-frame-extractor`
package.  The Lean definitions below are a shallow embedding of the Python
source under `src/video_frame_extractor/`: pure computations are Lean
functions over `Nat`/`Int`/`ℚ`, stateful effects (file writes, seeks,
exception points) are made explicit in the return values, and exceptions
are `Except`/`Option` values.  Each definition names the source function
it embeds.
-/

/-- Python `int(x)` applied to a (mathematically exact) real value:
truncation toward zero.  All quantities numerically relevant here are
small enough that float arithmetic is exact to well below the truncation
granularity, so the rational model is faithful. -/
def pyInt (q : ℚ) : ℤ := if 0 ≤ q then ⌊q⌋ else ⌈q⌉

deriving instance DecidableEq for Except

/-- The probe result of `core/video.py::get_video_info` (a `dict` in the
source).  `fps` and `duration` default to `0` when unreadable. -/
structure MediaInfo where
  fps : ℚ
  total_frames : Nat
  duration : ℚ
deriving DecidableEq, Repr

/-- `core/video.py::get_video_info`, lines 37-42: the `total_frames`
derivation.  `raw_frames = 0` models both a `None` and a `0` value of
`stream.frames` (Python truthiness: `stream.frames if stream.frames else 0`).
When the raw count is falsy and both `fps` and `duration` are positive,
the count is derived as `int(duration * fps)`; otherwise the falsy raw
count stays `0`. -/
def get_total_frames (raw_frames : Nat) (fps duration : ℚ) : ℤ :=
  if raw_frames = 0 ∧ 0 < fps ∧ 0 < duration then pyInt (duration * fps)
  else (raw_frames : ℤ)

/-- Observable effect trace of one `core/extract.py::extract_frame` call:
the outcome, whether the container was opened for decoding, whether a
seek was issued, and how many still images were written. -/
structure ExtractTrace where
  outcome : Except String Unit
  opened : Bool
  sought : Bool
  saved : Nat
deriving DecidableEq, Repr

/-- The decode loop of `core/extract.py::extract_frame`, lines 46-52:
iterate over the decoded frames; at `current_frame == 0` save one image
and break, otherwise increment the counter.  Returns the number of
images saved. -/
def decode_loop (frames : List Nat) (current_frame : Nat) : Nat :=
  match frames with
  | [] => 0
  | _f :: rest => if current_frame = 0 then 1 else decode_loop rest (current_frame + 1)

/-- `core/extract.py::extract_frame`.  `info` is the probe result,
`frames` the sequence of frames the container decodes after the seek
(empty when decoding yields nothing).  The bounds check precedes the
directory creation, the container open and the seek; the seek is issued
only when `info.fps > 0`.  Container-open failures are outside this
model (the claims under study concern the bounds check and the decode
loop). -/
def extract_frame (info : MediaInfo) (frames : List Nat) (frame_number : Nat) :
    ExtractTrace :=
  if 0 < info.total_frames ∧ info.total_frames ≤ frame_number then
    { outcome := .error "FrameOutOfRange", opened := false, sought := false, saved := 0 }
  else
    { outcome := .ok (), opened := true, sought := decide (0 < info.fps),
      saved := decode_loop frames 0 }

/-- The result-collection loop of `core/extract.py::batch_extract`,
lines 97-100: `for future in futures: future.result(); pbar.update(1)`.
Input: the per-job outcomes in submission order (a job that raised is an
`error`).  `future.result()` re-raises a failed job's exception, which
aborts the loop; the returned pair is (number of sibling results
processed/reported, the propagated exception if any). -/
def batch_extract_collect : List (Except String Unit) → Nat × Option String
  | [] => (0, none)
  | r :: rest =>
    match r with
    | .ok _ =>
      let p := batch_extract_collect rest
      (p.1 + 1, p.2)
    | .error e => (0, some e)

/-- The result-collection loop of `core/compression.py::compress_images_to_webp`
(lines 115-123) and of `core/video_compression.py::compress_videos_in_dir`
(lines 180-188), which are textually identical: each job function catches
its own exceptions and returns a `(success, detail)` tuple, and the
collector processes every future, counting successes and updating the
progress bar once per job.  Returns (success_count, processed_count). -/
def batch_results_collect {α : Type} (rs : List (Bool × α)) : Nat × Nat :=
  rs.foldl (fun acc r => (acc.1 + (if r.1 then 1 else 0), acc.2 + 1)) (0, 0)

/-- The `too_large` test of `core/compression.py::process_single_image`,
line 74: `max_size_kb and file_size_kb > max_size_kb`.  `sizeB q` is the
measured byte count (`buffer.tell()`) of the encode at quality `q`;
`maxKB = 0` models both Python `None` and `0` (both falsy).  The source
compares `buffer.tell() / 1024 > max_size_kb` on exact values, which is
equivalent to the integer comparison `bytes > max_size_kb * 1024` used
here. -/
def too_large (sizeB : ℤ → ℕ) (maxKB : Nat) (q : ℤ) : Prop :=
  maxKB ≠ 0 ∧ maxKB * 1024 < sizeB q

/-- The `too_small` test of `core/compression.py::process_single_image`,
line 75: `min_size_kb and file_size_kb < min_size_kb and
current_quality < 95`, with the same falsy-bound and exact-comparison
modelling as `too_large`. -/
def too_small (sizeB : ℤ → ℕ) (minKB : Nat) (q : ℤ) : Prop :=
  minKB ≠ 0 ∧ sizeB q < minKB * 1024 ∧ q < 95

instance (sizeB : ℤ → ℕ) (maxKB : Nat) (q : ℤ) :
    Decidable (too_large sizeB maxKB q) :=
  inferInstanceAs (Decidable (_ ∧ _))

instance (sizeB : ℤ → ℕ) (minKB : Nat) (q : ℤ) :
    Decidable (too_small sizeB minKB q) :=
  inferInstanceAs (Decidable (_ ∧ _))

/-- The size-converging search loop of
`core/compression.py::process_single_image`, lines 69-95.  `fuel` is
`max_attempts - attempts`, so the call starts with `fuel = 20`,
mirroring the guard `while attempts < 20`.  Returns
`some (quality, attempts)` for the accepted (written) encoding, or
`none` when the loop exhausts its attempts without writing anything. -/
def size_search (sizeB : ℤ → ℕ) (maxKB minKB : Nat) :
    Nat → ℤ → Nat → Option (ℤ × Nat)
  | 0, _q, _attempts => none
  | fuel + 1, q, attempts =>
    if ¬too_large sizeB maxKB q ∧ ¬too_small sizeB minKB q then some (q, attempts)
    else if too_large sizeB maxKB q then
      if q ≤ 10 then some (q, attempts)
      else size_search sizeB maxKB minKB fuel (max 10 (q - 5)) (attempts + 1)
    else
      if 95 ≤ q then some (q, attempts)
      else size_search sizeB maxKB minKB fuel (min 95 (q + 5)) (attempts + 1)

/-- `core/compression.py::process_single_image`, size-constrained branch:
run the search from the caller-supplied base quality with
`attempts = 0` and `max_attempts = 20`. -/
def process_single_image_converge (sizeB : ℤ → ℕ) (maxKB minKB : Nat)
    (quality : ℤ) : Option (ℤ × Nat) :=
  size_search sizeB maxKB minKB 20 quality 0

/-- `core/video_compression.py::compress_video`, line 34:
`crf = int(51 * (100 - quality) / 100)` — Python `int()` truncation
toward zero of the exact quotient, i.e. t-division (the float quotient
of these small integers is far closer to the exact value than the
truncation granularity). -/
def crf (quality : ℤ) : ℤ := Int.tdiv (51 * (100 - quality)) 100

/-- Outcome of one `core/video_compression.py::compress_video` call:
the result and whether a file exists at `output_path` afterwards. -/
structure RecodeOutcome where
  outcome : Except String Unit
  output_exists : Bool
deriving DecidableEq, Repr

/-- The body of the `try` block of `compress_video` (lines 36-109) as a
sequence of effect steps, any of which may raise: step 0 opens the input,
step 1 is `av.open(output_path, 'w')` (this is the step that creates the
output file), steps 2-5 are stream setup, the encode loop, the encoder
flush with audio muxing, and the close/stat epilogue.  `failAt = some k`
means the collaborator raises at step `k`; the fold returns the file
state (does the output file exist) and whether an exception escaped. -/
def run_try_block : List Nat → Option Nat → Bool → Bool × Bool
  | [], _failAt, fs => (fs, false)
  | k :: rest, failAt, fs =>
    if failAt = some k then (fs, true)
    else run_try_block rest failAt (if k = 1 then true else fs)

/-- `core/video_compression.py::compress_video` with its exception
handler (lines 111-115): on any exception from the `try` block, delete
the output file if it exists, then re-raise as `RecodeFailed`. -/
def compress_video (failAt : Option Nat) : RecodeOutcome :=
  let r := run_try_block (List.range 6) failAt false
  if r.2 then
    { outcome := .error "RecodeFailed",
      output_exists := if r.1 then false else r.1 }
  else { outcome := .ok (), output_exists := r.1 }

/-- `cli.py::main`, `sample` branch, line 123:
`time_points = [i * interval for i in range(int(duration / interval) + 1)]`. -/
def sample_time_points (duration interval : ℚ) : List ℚ :=
  (List.range ((pyInt (duration / interval)).toNat + 1)).map
    (fun i : ℕ => (i : ℚ) * interval)

/-- `cli.py::main`, `sample` branch, lines 124-125: map each time point
to `int(t * fps)` and keep only indices `< total_frames`. -/
def sample_frame_nums (info : MediaInfo) (interval : ℚ) : List ℤ :=
  ((sample_time_points info.duration interval).map
    (fun t => pyInt (t * info.fps))).filter
    (fun f => f < (info.total_frames : ℤ))

/-- The output file name `batch_extract` derives for a frame number
(`core/extract.py`, line 76): `f"frame_-frame_num-.jpg"` (braces in the
source).  Duplicate frame numbers therefore yield duplicate names. -/
def frame_output_names (ns : List ℤ) : List String :=
  ns.map (fun n => "frame_" ++ toString n ++ ".jpg")

theorem pyInt_eq_floor (q : ℚ) (h : 0 ≤ q) : pyInt q = ⌊q⌋ := if_pos h

/-- C4: for every probed `info` with `0 < total_frames` and every
`frame_number ≥ total_frames`, `extract_frame` fails with the
out-of-range error before any decode or seek work: the container is
not opened, no seek is issued, and no output is written. -/
theorem extract_frame_out_of_range_fail_fast (info : MediaInfo)
    (frames : List Nat) (n : Nat)
    (h1 : 0 < info.total_frames) (h2 : info.total_frames ≤ n) :
    extract_frame info frames n =
      { outcome := .error "FrameOutOfRange", opened := false,
        sought := false, saved := 0 } := by
  unfold extract_frame
  rw [if_pos ⟨h1, h2⟩]

/-- C4 witness: a concrete out-of-range request (total_frames = 10,
frame 10) fails fast. -/
theorem extract_frame_out_of_range_fail_fast_witness :
    0 < 10 ∧ 10 ≤ 10 ∧
    extract_frame ⟨1, 10, 0⟩ [7, 8] 10 =
      { outcome := .error "FrameOutOfRange", opened := false,
        sought := false, saved := 0 } :=
  ⟨by decide, by decide,
    extract_frame_out_of_range_fail_fast ⟨1, 10, 0⟩ [7, 8] 10
      (by decide) (by decide)⟩

/-- C9: when the probed `total_frames` is `0` (unknown count), the
bounds check is skipped for every frame number: `extract_frame` never
returns the out-of-range error and proceeds to open the container for
seek/decode. -/
theorem extract_frame_unknown_total_no_range_error (info : MediaInfo)
    (frames : List Nat) (n : Nat) (h : info.total_frames = 0) :
    (extract_frame info frames n).outcome = .ok () ∧
    (extract_frame info frames n).outcome ≠ .error "FrameOutOfRange" ∧
    (extract_frame info frames n).opened = true := by
  unfold extract_frame
  rw [if_neg (by omega)]
  exact ⟨rfl, by simp, rfl⟩

/-- C9 witness: with unknown frame count, even frame number 10^9 is
accepted and decoding is attempted. -/
theorem extract_frame_unknown_total_no_range_error_witness :
    (⟨0, 0, 0⟩ : MediaInfo).total_frames = 0 ∧
    ((extract_frame ⟨0, 0, 0⟩ [] 1000000000).outcome = .ok () ∧
      (extract_frame ⟨0, 0, 0⟩ [] 1000000000).outcome ≠ .error "FrameOutOfRange" ∧
      (extract_frame ⟨0, 0, 0⟩ [] 1000000000).opened = true) :=
  ⟨rfl, extract_frame_unknown_total_no_range_error ⟨0, 0, 0⟩ [] 1000000000 rfl⟩

/-- C3 counterexample: when decoding yields no frames after the seek
(`frames = []`) on an in-range request, `extract_frame` returns
successfully (`ok`) having written no output, instead of failing — the
decode `for` loop simply never runs and no error is raised
(`core/extract.py`, lines 46-56). -/
theorem extract_frame_empty_decode_counterexample :
    (extract_frame ⟨1, 10, 10⟩ [] 5).outcome = .ok () ∧
    (extract_frame ⟨1, 10, 10⟩ [] 5).saved = 0 := by
  constructor
  · simp [extract_frame]
  · simp [extract_frame, decode_loop]

/-- C3 amended: on an in-range request, `extract_frame` writes exactly
one still image when decoding yields at least one frame; when decoding
yields no frames it writes nothing but still returns successfully (no
DecodeExhausted-style error is raised). -/
theorem extract_frame_decode_behavior (info : MediaInfo)
    (frames : List Nat) (n : Nat)
    (h : ¬(0 < info.total_frames ∧ info.total_frames ≤ n)) :
    (extract_frame info frames n).outcome = .ok () ∧
    (extract_frame info frames n).saved = (if frames = [] then 0 else 1) := by
  unfold extract_frame
  rw [if_neg h]
  refine ⟨rfl, ?_⟩
  cases frames with
  | nil => rfl
  | cons f rest => simp [decode_loop]

/-- C3 amended witness: one decoded frame produces exactly one saved
image on an in-range request. -/
theorem extract_frame_decode_behavior_witness :
    ¬(0 < (⟨1, 10, 0⟩ : MediaInfo).total_frames ∧
        (⟨1, 10, 0⟩ : MediaInfo).total_frames ≤ 5) ∧
    ((extract_frame ⟨1, 10, 0⟩ [42] 5).outcome = .ok () ∧
      (extract_frame ⟨1, 10, 0⟩ [42] 5).saved = (if ([42] : List Nat) = [] then 0 else 1)) :=
  ⟨by decide, extract_frame_decode_behavior ⟨1, 10, 0⟩ [42] 5 (by decide)⟩

/-- C8: when the frame count cannot be read from the container
(`raw = 0`), `get_video_info` derives `total_frames` as
`floor(duration * fps)` when both `fps` and `duration` are positive,
and leaves the default `0` otherwise. -/
theorem get_total_frames_derivation (raw : ℕ) (fps duration : ℚ)
    (h : raw = 0) :
    (0 < fps → 0 < duration →
      get_total_frames raw fps duration = ⌊duration * fps⌋) ∧
    (¬(0 < fps ∧ 0 < duration) → get_total_frames raw fps duration = 0) := by
  constructor
  · intro hf hd
    unfold get_total_frames
    rw [if_pos ⟨h, hf, hd⟩]
    exact pyInt_eq_floor _ (mul_nonneg hd.le hf.le)
  · intro hnot
    unfold get_total_frames
    rw [if_neg (by tauto)]
    simp [h]

/-- C8 witness: with raw count unreadable, fps = 2 and duration = 5 the
derived count is `⌊5 * 2⌋`; with fps = 0 it stays 0. -/
theorem get_total_frames_derivation_witness :
    ((0:ℕ) = 0 ∧ get_total_frames 0 2 5 = ⌊(5 : ℚ) * 2⌋) ∧
    ((0:ℕ) = 0 ∧ get_total_frames 0 0 5 = 0) :=
  ⟨⟨rfl, (get_total_frames_derivation 0 2 5 rfl).1 (by norm_num) (by norm_num)⟩,
    ⟨rfl, (get_total_frames_derivation 0 0 5 rfl).2 (by norm_num)⟩⟩

theorem batch_results_collect_foldl_aux {α : Type} (rs : List (Bool × α)) :
    ∀ init : Nat × Nat,
      (rs.foldl (fun acc r => (acc.1 + (if r.1 then 1 else 0), acc.2 + 1)) init).2 =
        init.2 + rs.length := by
  induction rs with
  | nil => intro init; simp
  | cons r rest ih =>
    intro init
    rw [List.foldl_cons, ih, List.length_cons]
    omega

theorem batch_extract_collect_all_ok_aux (outs : List (Except String Unit))
    (h : ∀ o ∈ outs, o = .ok ()) :
    batch_extract_collect outs = (outs.length, none) := by
  induction outs with
  | nil => rfl
  | cons o rest ih =>
    have ho : o = .ok () := h o (by simp)
    subst ho
    unfold batch_extract_collect
    rw [ih (fun o hm => h o (by simp [hm]))]
    rfl

/-- C1 counterexample: in `batch_extract` the collection loop calls
`future.result()` with no per-job exception handling, so the first
failed job re-raises and aborts the loop — with outcomes
`[failure, success]` the succeeding sibling's result is never processed
(0 of 2 results are reported), refuting per-item failure isolation for
the frame batch extraction path. -/
theorem batch_extract_failure_aborts_counterexample :
    batch_extract_collect [.error "boom", .ok ()] = (0, some "boom") ∧
    (batch_extract_collect [.error "boom", .ok ()]).1 ≠ 2 := by
  constructor
  · rfl
  · decide

/-- C1 amended: the image- and video-compression batch collectors
process exactly one result per submitted job (the job function catches
its own exceptions), regardless of how many jobs fail; the
`batch_extract` collector processes one result per job only when every
job succeeds. -/
theorem batch_collect_completeness :
    (∀ (α : Type) (rs : List (Bool × α)),
      (batch_results_collect rs).2 = rs.length) ∧
    (∀ outs : List (Except String Unit), (∀ o ∈ outs, o = .ok ()) →
      batch_extract_collect outs = (outs.length, none)) := by
  constructor
  · intro α rs
    unfold batch_results_collect
    rw [batch_results_collect_foldl_aux]
    simp
  · exact batch_extract_collect_all_ok_aux

/-- C1 amended witness: a two-job compression batch with one failure
still reports two results; a two-job all-success extraction batch
reports two results. -/
theorem batch_collect_completeness_witness :
    (batch_results_collect [(true, (0:ℕ)), (false, 1)]).2 =
      [(true, (0:ℕ)), (false, 1)].length ∧
    batch_extract_collect [.ok (), .ok ()] =
      (([Except.ok (), Except.ok ()] : List (Except String Unit)).length, none) :=
  ⟨batch_collect_completeness.1 ℕ _,
    batch_collect_completeness.2 [.ok (), .ok ()] (by decide)⟩

/-- C5 counterexample: the recoder computes
`crf = int(51 * (100 - quality) / 100)`, which truncates; at
quality = 99 the code yields factor 0 while the claimed
`round(51 * (100 - 99) / 100) = round(0.51)` is 1. -/
theorem crf_truncation_counterexample :
    crf 99 = 0 ∧ round ((51 * (100 - (99:ℤ)) : ℤ) / (100 : ℚ)) = 1 ∧
    (0 : ℤ) ≠ 1 := by
  refine ⟨by decide, ?_, by decide⟩
  rw [round_eq, Int.floor_eq_iff]
  norm_num

/-- C5 amended: for quality in [0,100] the mapping is the *floor*
(truncation) of `51 * (100 - quality) / 100`, a factor in [0,51]; the
anchor values quality=100 → 0, quality=50 → 25, quality=0 → 51 hold as
claimed. -/
theorem crf_floor_mapping :
    (∀ q : ℤ, 0 ≤ q → q ≤ 100 →
      (crf q : ℚ) ≤ ((51 * (100 - q) : ℤ) : ℚ) / 100 ∧
      ((51 * (100 - q) : ℤ) : ℚ) / 100 < crf q + 1 ∧
      0 ≤ crf q ∧ crf q ≤ 51) ∧
    crf 100 = 0 ∧ crf 50 = 25 ∧ crf 0 = 51 := by
  refine ⟨?_, by decide, by decide, by decide⟩
  intro q h0 h100
  have ha : (0:ℤ) ≤ 51 * (100 - q) := by nlinarith
  have ht : crf q = 51 * (100 - q) / 100 := by
    unfold crf
    exact Int.tdiv_eq_ediv ha (by norm_num)
  refine ⟨?_, ?_, by rw [ht]; omega, by rw [ht]; omega⟩
  · rw [le_div_iff₀ (by norm_num : (0:ℚ) < 100)]
    have hZ : crf q * 100 ≤ 51 * (100 - q) := by rw [ht]; omega
    exact_mod_cast hZ
  · rw [div_lt_iff₀ (by norm_num : (0:ℚ) < 100)]
    have hZ : 51 * (100 - q) < (crf q + 1) * 100 := by rw [ht]; omega
    exact_mod_cast hZ

/-- C5 amended witness: the floor characterization at quality 30
(factor 35). -/
theorem crf_floor_mapping_witness :
    (0:ℤ) ≤ 30 ∧ (30:ℤ) ≤ 100 ∧
    ((crf 30 : ℚ) ≤ ((51 * (100 - (30:ℤ)) : ℤ) : ℚ) / 100 ∧
      ((51 * (100 - (30:ℤ)) : ℤ) : ℚ) / 100 < crf 30 + 1 ∧
      0 ≤ crf 30 ∧ crf 30 ≤ 51) :=
  ⟨by decide, by decide, crf_floor_mapping.1 30 (by decide) (by decide)⟩

/-- C6: whenever `compress_video` fails — at any step of the recode,
before or after the output file was created — the exception handler
deletes any file at the output path before re-raising, so after a
failing call no file exists at the output path. -/
theorem compress_video_cleanup_on_failure (failAt : Option Nat)
    (h : (compress_video failAt).outcome = .error "RecodeFailed") :
    (compress_video failAt).output_exists = false := by
  unfold compress_video at *
  rcases hr : run_try_block (List.range 6) failAt false with ⟨fs, raised⟩
  cases raised with
  | true => cases fs <;> simp
  | false =>
    rw [hr] at h
    simp at h

/-- C6 witness: a failure in the middle of the encode loop (step 3,
after the output file was created at step 1) leaves no output file. -/
theorem compress_video_cleanup_on_failure_witness :
    (compress_video (some 3)).outcome = .error "RecodeFailed" ∧
    (compress_video (some 3)).output_exists = false :=
  ⟨by decide, compress_video_cleanup_on_failure (some 3) (by decide)⟩

theorem size_search_bounds_aux (sizeB : ℤ → ℕ) (maxKB minKB : ℕ)
    (lo hi : ℤ) (hlo : lo ≤ 10) (hhi : 95 ≤ hi) :
    ∀ (fuel : ℕ) (q : ℤ) (attempts : ℕ) (q' : ℤ) (a' : ℕ),
      lo ≤ q → q ≤ hi →
      size_search sizeB maxKB minKB fuel q attempts = some (q', a') →
      lo ≤ q' ∧ q' ≤ hi := by
  intro fuel
  induction fuel with
  | zero =>
    intro q attempts q' a' _ _ hcontra
    simp [size_search] at hcontra
  | succ n ih =>
    intro q attempts q' a' hq1 hq2 h
    rw [size_search] at h
    split at h
    · cases h
      exact ⟨hq1, hq2⟩
    · split at h
      · split at h
        · cases h
          exact ⟨hq1, hq2⟩
        · exact ih _ _ _ _ (by omega) (by omega) h
      · split at h
        · cases h
          exact ⟨hq1, hq2⟩
        · exact ih _ _ _ _ (by omega) (by omega) h

theorem size_search_attempts_aux (sizeB : ℤ → ℕ) (maxKB minKB : ℕ) :
    ∀ (fuel : ℕ) (q : ℤ) (attempts : ℕ) (q' : ℤ) (a' : ℕ),
      size_search sizeB maxKB minKB fuel q attempts = some (q', a') →
      a' < attempts + fuel := by
  intro fuel
  induction fuel with
  | zero =>
    intro q attempts q' a' hcontra
    simp [size_search] at hcontra
  | succ n ih =>
    intro q attempts q' a' h
    rw [size_search] at h
    split at h
    · cases h
      omega
    · split at h
      · split at h
        · cases h
          omega
        · have := ih _ _ _ _ h
          omega
      · split at h
        · cases h
          omega
        · have := ih _ _ _ _ h
          omega

/-- C2 counterexample: the size-converging loop does not accept (write)
an encoding in every terminating case, and an acceptance after the first
iteration can lie outside [10,95].  With window [10KB, 50KB] and an
encoder whose output jumps from 0 bytes to 100KB at quality 50, the
search oscillates between qualities 45 and 50 and exhausts all 20
attempts without ever writing a file.  With base quality 200 and an
encoder measuring 60KB at quality ≥ 200 and 30KB below, the second
iteration (attempt 1) accepts quality 195 ∉ [10,95]. -/
theorem size_search_exhaustion_counterexample :
    process_single_image_converge (fun q => if 50 ≤ q then 100 * 1024 else 0) 50 10 50 =
      none ∧
    process_single_image_converge (fun q => if 200 ≤ q then 60 * 1024 else 30 * 1024) 50 10 200 =
      some (195, 1) ∧
    ¬((195:ℤ) ≤ 95) :=
  ⟨by decide, by decide, by decide⟩

/-- C2 amended: for every size function, window and base quality `b`,
the search terminates within 20 attempts (any accepted encoding carries
an attempt counter < 20, and the loop guard caps the iterations at 20
even when nothing is accepted); an accepted encoding's quality always
lies in [min(b,10), max(b,95)], and lies in [10,95] whenever the base
quality is in [10,95] — but the loop may also exhaust its attempts
without accepting any encoding. -/
theorem size_search_terminates_and_bounds (sizeB : ℤ → ℕ)
    (maxKB minKB : ℕ) (b : ℤ) :
    (∀ (q' : ℤ) (a' : ℕ),
      process_single_image_converge sizeB maxKB minKB b = some (q', a') →
      a' < 20 ∧ min b 10 ≤ q' ∧ q' ≤ max b 95) ∧
    (10 ≤ b → b ≤ 95 → ∀ (q' : ℤ) (a' : ℕ),
      process_single_image_converge sizeB maxKB minKB b = some (q', a') →
      10 ≤ q' ∧ q' ≤ 95) := by
  constructor
  · intro q' a' h
    refine ⟨?_, ?_⟩
    · have := size_search_attempts_aux sizeB maxKB minKB 20 b 0 q' a' h
      omega
    · exact size_search_bounds_aux sizeB maxKB minKB (min b 10) (max b 95)
        (by omega) (by omega) 20 b 0 q' a' (by omega) (by omega) h
  · intro hb1 hb2 q' a' h
    exact size_search_bounds_aux sizeB maxKB minKB 10 95 le_rfl le_rfl
      20 b 0 q' a' hb1 hb2 h

/-- C2 amended witness: with no size bounds set, base quality 50 is
accepted on the first attempt, with quality inside [10,95]. -/
theorem size_search_terminates_and_bounds_witness :
    process_single_image_converge (fun _ => 0) 0 0 50 = some (50, 0) ∧
    (10:ℤ) ≤ 50 ∧ (50:ℤ) ≤ 95 ∧
    ((10:ℤ) ≤ 50 ∧ (50:ℤ) ≤ 95) :=
  ⟨by decide, by decide, by decide,
    (size_search_terminates_and_bounds (fun _ => 0) 0 0 50).2
      (by decide) (by decide) 50 0 (by decide)⟩

theorem sample_time_points_mem_aux (duration interval : ℚ) (t : ℚ)
    (ht : t ∈ sample_time_points duration interval) :
    ∃ k : ℕ, t = (k : ℚ) * interval := by
  unfold sample_time_points at ht
  rw [List.mem_map] at ht
  obtain ⟨k, _, rfl⟩ := ht
  exact ⟨k, rfl⟩

theorem sample_index_monotone_aux (info : MediaInfo) (interval : ℚ)
    (hi : 0 < interval) (hf : 0 ≤ info.fps) :
    List.Pairwise (· ≤ ·) (sample_frame_nums info interval) := by
  unfold sample_frame_nums sample_time_points
  rw [List.map_map]
  apply List.Pairwise.filter
  apply List.Pairwise.map _ _ (List.pairwise_lt_range _)
  intro a b hab
  simp only [Function.comp]
  have hcast : (a : ℚ) ≤ (b : ℚ) := by exact_mod_cast hab.le
  have h1 : (a : ℚ) * interval * info.fps ≤ (b : ℚ) * interval * info.fps :=
    mul_le_mul_of_nonneg_right (mul_le_mul_of_nonneg_right hcast hi.le) hf
  have hnn : 0 ≤ (a : ℚ) * interval * info.fps :=
    mul_nonneg (mul_nonneg (Nat.cast_nonneg a) hi.le) hf
  rw [pyInt_eq_floor _ hnn, pyInt_eq_floor _ (le_trans hnn h1)]
  exact Int.floor_le_floor h1

/-- C7 counterexample: with duration 10 and interval 3 the time points
are 0, 3, 6, 9 — four points (`floor(10/3)+1`), whose last point 9 is
*below* the duration, not "the first point ≥ duration" as claimed (that
would require a fifth point 12). -/
theorem sample_last_point_counterexample :
    sample_time_points 10 3 = [0, 3, 6, 9] ∧
    (sample_time_points 10 3).getLast? = some 9 ∧
    ¬((9:ℚ) ≥ 10) := by
  have h3 : pyInt ((10 : ℚ) / 3) = 3 := by
    rw [pyInt_eq_floor _ (by norm_num), Int.floor_eq_iff]
    norm_num
  have h4 : (pyInt ((10 : ℚ) / 3)).toNat + 1 = 4 := by rw [h3]; rfl
  have hlist : sample_time_points 10 3 = [0, 3, 6, 9] := by
    unfold sample_time_points
    rw [h4]
    norm_num [List.range_succ]
  refine ⟨hlist, ?_, by norm_num⟩
  rw [hlist]
  rfl

/-- C7 amended: for interval > 0, duration ≥ 0 and fps ≥ 0, the sampled
sequence is the pure function of (info, interval) given by:
`floor(duration/interval)+1` time points `0, interval, 2*interval, ...`
— the last point being the *largest* multiple of the interval that is
≤ duration (the claim's "first point ≥ duration" holds only when the
interval divides the duration) — each mapped to `floor(time * fps)` and
filtered to exclude any index ≥ total_frames, so every produced index
is < total_frames. -/
theorem sample_schedule_spec (info : MediaInfo) (interval : ℚ)
    (hi : 0 < interval) (hd : 0 ≤ info.duration) (hf : 0 ≤ info.fps) :
    (sample_time_points info.duration interval).length =
      (⌊info.duration / interval⌋).toNat + 1 ∧
    (sample_time_points info.duration interval).getLast? =
      some ((⌊info.duration / interval⌋.toNat : ℚ) * interval) ∧
    (⌊info.duration / interval⌋.toNat : ℚ) * interval ≤ info.duration ∧
    info.duration < (⌊info.duration / interval⌋.toNat : ℚ) * interval + interval ∧
    (∀ t ∈ sample_time_points info.duration interval,
      pyInt (t * info.fps) = ⌊t * info.fps⌋) ∧
    (∀ f ∈ sample_frame_nums info interval, f < (info.total_frames : ℤ)) := by
  have hdiv : (0:ℚ) ≤ info.duration / interval := div_nonneg hd hi.le
  have h0 : (0:ℤ) ≤ ⌊info.duration / interval⌋ := Int.floor_nonneg.mpr hdiv
  have hcast : ((⌊info.duration / interval⌋.toNat : ℕ) : ℚ) =
      ((⌊info.duration / interval⌋ : ℤ) : ℚ) := by
    exact_mod_cast congrArg (fun z : ℤ => (z : ℚ)) (Int.toNat_of_nonneg h0)
  refine ⟨?_, ?_, ?_, ?_, ?_, ?_⟩
  · unfold sample_time_points
    rw [List.length_map, List.length_range,
      pyInt_eq_floor _ hdiv]
  · unfold sample_time_points
    rw [pyInt_eq_floor _ hdiv, List.range_succ, List.map_append]
    simp
  · rw [hcast]
    have h1 : ((⌊info.duration / interval⌋ : ℤ) : ℚ) ≤ info.duration / interval :=
      Int.floor_le _
    calc ((⌊info.duration / interval⌋ : ℤ) : ℚ) * interval
        ≤ (info.duration / interval) * interval :=
          mul_le_mul_of_nonneg_right h1 hi.le
      _ = info.duration := div_mul_cancel₀ _ (ne_of_gt hi)
  · rw [hcast]
    have h2 : info.duration / interval < (⌊info.duration / interval⌋ : ℚ) + 1 :=
      Int.lt_floor_add_one _
    have h3 : info.duration < ((⌊info.duration / interval⌋ : ℚ) + 1) * interval := by
      have h4 := mul_lt_mul_of_pos_right h2 hi
      rwa [div_mul_cancel₀ _ (ne_of_gt hi)] at h4
    calc info.duration
        < ((⌊info.duration / interval⌋ : ℚ) + 1) * interval := h3
      _ = (⌊info.duration / interval⌋ : ℚ) * interval + interval := by ring
  · intro t ht
    obtain ⟨k, rfl⟩ := sample_time_points_mem_aux _ _ _ ht
    exact pyInt_eq_floor _
      (mul_nonneg (mul_nonneg (Nat.cast_nonneg k) hi.le) hf)
  · intro f hmem
    unfold sample_frame_nums at hmem
    rw [List.mem_filter] at hmem
    exact_mod_cast of_decide_eq_true hmem.2

/-- C7 amended witness: the characterization instantiated at duration
10, interval 3, fps 1: four time points whose last is 9, with
9 ≤ 10 < 9 + 3. -/
theorem sample_schedule_spec_witness :
    (0:ℚ) < 3 ∧ (0:ℚ) ≤ 10 ∧ (0:ℚ) ≤ 1 ∧
    ((sample_time_points (10:ℚ) 3).length = (⌊(10:ℚ) / 3⌋).toNat + 1 ∧
      (⌊(10:ℚ) / 3⌋.toNat : ℚ) * 3 ≤ 10 ∧
      (10:ℚ) < (⌊(10:ℚ) / 3⌋.toNat : ℚ) * 3 + 3) :=
  ⟨by norm_num, by norm_num, by norm_num,
    (sample_schedule_spec ⟨1, 100, 10⟩ 3 (by norm_num) (by norm_num) (by norm_num)).1,
    (sample_schedule_spec ⟨1, 100, 10⟩ 3 (by norm_num) (by norm_num) (by norm_num)).2.2.1,
    (sample_schedule_spec ⟨1, 100, 10⟩ 3 (by norm_num) (by norm_num) (by norm_num)).2.2.2.1⟩

/-- C10: for every probe result and every positive interval (with
fps ≥ 0) the sampled frame-index sequence is monotone nondecreasing;
and it is not deduplicated: with fps = 1/2 (interval * fps = 1/2 < 1),
duration 3 and interval 1 the sequence is [0, 0, 1, 1] — consecutive
time points map to equal indices — so the batch receives duplicate jobs
whose derived output file names collide. -/
theorem sample_monotone_with_duplicates :
    (∀ (info : MediaInfo) (interval : ℚ), 0 < interval → 0 ≤ info.fps →
      List.Pairwise (· ≤ ·) (sample_frame_nums info interval)) ∧
    sample_frame_nums ⟨1/2, 100, 3⟩ 1 = [0, 0, 1, 1] ∧
    ¬(sample_frame_nums ⟨1/2, 100, 3⟩ 1).Nodup ∧
    ¬(frame_output_names (sample_frame_nums ⟨1/2, 100, 3⟩ 1)).Nodup ∧
    (1 : ℚ) * (1/2) < 1 := by
  have h3 : pyInt ((3 : ℚ) / 1) = 3 := by
    rw [pyInt_eq_floor _ (by norm_num)]
    norm_num
  have h4 : (pyInt ((3 : ℚ) / 1)).toNat + 1 = 4 := by rw [h3]; rfl
  have hconc : sample_frame_nums ⟨1/2, 100, 3⟩ 1 = [0, 0, 1, 1] := by
    unfold sample_frame_nums sample_time_points
    rw [h4]
    norm_num [List.range_succ, pyInt]
  refine ⟨fun info interval h1 h2 => sample_index_monotone_aux info interval h1 h2,
    hconc, ?_, ?_, by norm_num⟩
  · rw [hconc]
    decide
  · rw [hconc]
    decide

/-- C10 witness: monotonicity instantiated at fps 1, duration 10,
interval 3. -/
theorem sample_monotone_with_duplicates_witness :
    (0:ℚ) < 3 ∧ (0:ℚ) ≤ 1 ∧
    List.Pairwise (· ≤ ·) (sample_frame_nums ⟨1, 100, 10⟩ 3) :=
  ⟨by norm_num, by norm_num,
    sample_monotone_with_duplicates.1 ⟨1, 100, 10⟩ 3 (by norm_num) (by norm_num)⟩
